import Mathlib

/-!
Shallow embedding of the suparust session-lifecycle core (src/lib.rs,
src/auth.rs, src/postgrest.rs, src/storage/mod.rs, src/storage/object.rs).

External collaborators (the identity provider, the HTTP transport, the
mime-guess table and mime parser, the notification channels) are modelled as
oracle parameters: each operation receives the outcome the external call
would produce and we record, in the operation's outcome, exactly which
provider calls were issued, which sessions were offered to the notification
sink, and which warnings were logged.
-/

namespace Suparust

/-- Opaque owning identity of a session. supabase_auth::models::User is treated
as an opaque record by this crate: it is only cloned, never inspected, so one
identifying field suffices. -/
structure User where
  id : String
  deriving Repr, DecidableEq

/-- Session (supabase_auth::models::Session). Only the fields this crate reads
are modelled: access_token, refresh_token, expires_at (a u64 of absolute epoch
seconds) and user. -/
structure Session where
  access_token : String
  refresh_token : String
  expires_at : Nat
  user : User
  deriving Repr, DecidableEq

/-- Grace period constant from src/auth.rs line 6 (an i64 in the source). -/
def SESSION_REFRESH_GRACE_PERIOD_SECONDS : Int := 60

/-- Reinterpretation of a u64 value as an i64, modelling the Rust cast
`auth_state.expires_at as i64` in src/auth.rs line 71 (two's-complement
wrap-around). -/
def toI64 (n : Nat) : Int :=
  ((n : Int) + 2 ^ 63) % 2 ^ 64 - 2 ^ 63

/-- Header map modelled as an association list; reqwest's HeaderMap::insert
replaces any existing value for the name, which the model mirrors. -/
abbrev Headers := List (String × String)

/-- HeaderMap::insert: replace any entry with the same name. -/
def insertHeader (hs : Headers) (name value : String) : Headers :=
  (name, value) :: hs.filter (fun p => p.1 != name)

/-- HeaderMap lookup by exact name (the crate uses consistent casing for the
headers it sets: apikey, Authorization, Content-Type). -/
def getHeader (hs : Headers) (name : String) : Option String :=
  (hs.find? (fun p => p.1 == name)).map (fun p => p.2)

/-- ASCII lower-casing of one character (header names are ASCII). -/
def lowerChar (c : Char) : Char :=
  if 65 ≤ c.toNat ∧ c.toNat ≤ 90 then Char.ofNat (c.toNat + 32) else c

/-- ASCII lower-casing of a string. -/
def lowerString (s : String) : String :=
  ⟨s.data.map lowerChar⟩

/-- Case-insensitive header lookup, for reading response headers (reqwest
stores response header names lower-cased and looks them up case-insensitively). -/
def headerGet (hs : Headers) (name : String) : Option String :=
  (hs.find? (fun p => lowerString p.1 == lowerString name)).map (fun p => p.2)

/-- Postgrest client state (src/external/postgrest_rs/mod.rs): base url, an
optional schema and the default headers new builders start from. The reqwest
Client field carries no observable state and is omitted. -/
structure Postgrest where
  url : String
  schema : Option String
  headers : Headers
  deriving Repr, DecidableEq

/-- Postgrest::new. -/
def Postgrest.new (url : String) : Postgrest :=
  { url := url, schema := none, headers := [] }

/-- Postgrest::insert_header. -/
def Postgrest.insert_header (p : Postgrest) (name value : String) : Postgrest :=
  { p with headers := insertHeader p.headers name value }

/-- Modelled from the spec: the query Builder (src/external/postgrest_rs/builder.rs
is not under src/). Per the spec the builder is an out-of-scope collaborator that
receives a base URL, the schema and the current default headers from
Builder::new, plus stored-procedure parameters for rpc; the model records
exactly the data Postgrest::from and Postgrest::rpc pass to it. -/
structure Builder where
  url : String
  schema : Option String
  headers : Headers
  rpcParams : Option String
  deriving Repr, DecidableEq

/-- Postgrest::from (named fromTable because from is a Lean keyword): builds a
Builder for url/table carrying the current default headers. -/
def Postgrest.fromTable (p : Postgrest) (table : String) : Builder :=
  { url := p.url ++ "/" ++ table, schema := p.schema, headers := p.headers
    rpcParams := none }

/-- Postgrest::rpc: builds a Builder for url/rpc/function carrying the current
default headers and the given parameters. -/
def Postgrest.rpc (p : Postgrest) (function params : String) : Builder :=
  { url := p.url ++ "/rpc/" ++ function, schema := p.schema, headers := p.headers
    rpcParams := some params }

/-- SessionChangeListener (src/auth.rs): the delivery mode fixed at
construction. The channel senders are external collaborators; whether a send
on them succeeds is an oracle parameter of each operation. -/
inductive SessionChangeListener where
  | Ignore
  | Sync
  | Async
  deriving Repr, DecidableEq

/-- supabase_auth::error::Error, as far as this crate inspects it: the code
matches only the AuthError variant and its status field (src/auth.rs lines
79-84); every other variant of the external enum is collapsed into other. -/
inductive AuthLibError where
  | authError (status : Nat) (message : String)
  | other (description : String)
  deriving Repr, DecidableEq

/-- Tests whether an error is the AuthError variant with HTTP status 400
(reqwest::StatusCode::BAD_REQUEST), the condition of src/auth.rs lines 79-80. -/
def isBadRequestAuthError : AuthLibError → Bool
  | .authError status _ => status == 400
  | .other _ => false

/-- Structured storage error body (src/storage/mod.rs Error). -/
structure StorageError where
  status_code : String
  error : String
  message : String
  deriving Repr, DecidableEq

/-- SupabaseError (src/lib.rs). -/
inductive SupabaseError where
  | SessionRefresh (cause : AuthLibError)
  | MissingAuthenticationInformation
  | Storage (e : StorageError)
  | UnknownMimeType
  | Reqwest (description : String)
  | Auth (cause : AuthLibError)
  | Internal (description : String)
  deriving Repr, DecidableEq

/-- supabase_auth::models::LogoutScope, passed through opaquely. -/
inductive LogoutScope where
  | Global
  | Local
  | Others
  deriving Repr, DecidableEq

/-- supabase_auth::models::UpdateUserPayload. The data field is opaque JSON,
modelled as a string; the crate never sets it. -/
structure UpdateUserPayload where
  email : Option String
  password : Option String
  data : Option String
  deriving Repr, DecidableEq

/-- A call made to the remote identity provider, with the arguments the code
passes it; outcomes record the list of such calls so that theorems can state
that an operation made no network call, or exactly one with a given token. -/
inductive ProviderCall where
  | refresh (refresh_token : String)
  | login (email password : String)
  | logout (scope : Option LogoutScope) (access_token : String)
  | updateUser (payload : UpdateUserPayload) (access_token : String)
  deriving Repr, DecidableEq

/-- The Supabase client state (src/lib.rs): the Session Store, the shared
postgrest default-header state, the api key, base url and the notification
mode. The AuthClient and reqwest clients are stateless collaborators. -/
structure Supabase where
  session : Option Session
  postgrest : Postgrest
  api_key : String
  url_base : String
  session_listener : SessionChangeListener
  deriving Repr, DecidableEq

/-- Supabase::new (src/lib.rs lines 204-229): seed the postgrest headers with
apikey and, when a prior session is supplied, its bearer token; store the
optional session. -/
def Supabase.new (url api_key : String) (session : Option Session)
    (session_listener : SessionChangeListener) : Supabase :=
  let postgrest0 := (Postgrest.new (url ++ "/rest/v1")).insert_header "apikey" api_key
  let postgrest :=
    match session with
    | some s => postgrest0.insert_header "Authorization" ("Bearer " ++ s.access_token)
    | none => postgrest0
  { session := session, postgrest := postgrest, api_key := api_key
    url_base := url, session_listener := session_listener }

deriving instance DecidableEq for Except

/-- Outcome of one client operation: the returned result, the client state
afterwards, the sessions offered to the notification sink, the warnings
logged, and the identity-provider calls made, in order. -/
structure AuthOutcome (α : Type) where
  result : Except SupabaseError α
  state : Supabase
  offers : List Session
  logs : List String
  calls : List ProviderCall
  deriving Repr, DecidableEq

/-- Result of set_auth_state: the updated client state, the sessions offered
to the sink and the warnings logged. -/
structure SetAuthResult where
  state : Supabase
  offers : List Session
  logs : List String
  deriving Repr, DecidableEq

/-- Supabase::set_auth_state (src/auth.rs lines 23-44): store the session,
insert the bearer header into the shared postgrest state, then offer the
session to the listener; sendOk tells whether the channel send succeeds, and a
failed send only logs a warning. -/
def Supabase.set_auth_state (st : Supabase) (sendOk : Bool) (session : Session) :
    SetAuthResult :=
  let st' := { st with
    session := some session
    postgrest := st.postgrest.insert_header "Authorization"
      ("Bearer " ++ session.access_token) }
  match st.session_listener with
  | .Ignore => { state := st', offers := [], logs := [] }
  | .Sync =>
      { state := st', offers := [session]
        logs := if sendOk then [] else ["Failed to send session to listener"] }
  | .Async =>
      { state := st', offers := [session]
        logs := if sendOk then [] else ["Failed to send session to listener"] }

/-- Supabase::has_valid_auth_state (src/auth.rs lines 48-50). -/
def Supabase.has_valid_auth_state (st : Supabase) : Bool :=
  st.session.isSome

/-- Supabase::refresh_login (src/auth.rs lines 63-93). now is the wall clock
epoch value now_as_epoch returned; refreshResult is the outcome the identity
provider's refresh_session call would produce if made. -/
def Supabase.refresh_login (st : Supabase) (now : Int)
    (refreshResult : Except AuthLibError Session) (sendOk : Bool) :
    AuthOutcome Unit :=
  match st.session with
  | none =>
      { result := .error .MissingAuthenticationInformation, state := st
        offers := [], logs := [], calls := [] }
  | some auth_state =>
      let expired := toI64 auth_state.expires_at < now + SESSION_REFRESH_GRACE_PERIOD_SECONDS
      if expired then
        match refreshResult with
        | .ok session =>
            let r := st.set_auth_state sendOk session
            { result := .ok (), state := r.state, offers := r.offers
              logs := r.logs, calls := [.refresh auth_state.refresh_token] }
        | .error error =>
            if isBadRequestAuthError error then
              { result := .error (.SessionRefresh error)
                state := { st with session := none }
                offers := [], logs := [], calls := [.refresh auth_state.refresh_token] }
            else
              { result := .error (.SessionRefresh error), state := st
                offers := [], logs := [], calls := [.refresh auth_state.refresh_token] }
      else
        { result := .ok (), state := st, offers := [], logs := [], calls := [] }

/-- Supabase::login_with_email (src/auth.rs lines 55-61); loginResult is the
outcome of the provider's login call, converted to SupabaseError::Auth on
failure by the question-mark operator's From conversion. -/
def Supabase.login_with_email (st : Supabase) (email password : String)
    (loginResult : Except AuthLibError Session) (sendOk : Bool) :
    AuthOutcome Session :=
  match loginResult with
  | .error e =>
      { result := .error (.Auth e), state := st, offers := [], logs := []
        calls := [.login email password] }
  | .ok session =>
      let r := st.set_auth_state sendOk session
      { result := .ok session, state := r.state, offers := r.offers
        logs := r.logs, calls := [.login email password] }

/-- Supabase::logout (src/auth.rs lines 98-114): refresh first, read the
access token, call the provider's logout (the question mark propagates its
failure as SupabaseError::Auth before the store is touched), and only then
clear the store. -/
def Supabase.logout (st : Supabase) (now : Int) (scope : Option LogoutScope)
    (refreshResult : Except AuthLibError Session)
    (logoutResult : Except AuthLibError Unit) (sendOk : Bool) :
    AuthOutcome Unit :=
  let r := st.refresh_login now refreshResult sendOk
  match r.result with
  | .error e =>
      { result := .error e, state := r.state, offers := r.offers
        logs := r.logs, calls := r.calls }
  | .ok _ =>
      match r.state.session with
      | none =>
          { result := .error .MissingAuthenticationInformation, state := r.state
            offers := r.offers, logs := r.logs, calls := r.calls }
      | some session =>
          let token := session.access_token
          match logoutResult with
          | .error e =>
              { result := .error (.Auth e), state := r.state, offers := r.offers
                logs := r.logs, calls := r.calls ++ [.logout scope token] }
          | .ok _ =>
              { result := .ok (), state := { r.state with session := none }
                offers := r.offers, logs := r.logs
                calls := r.calls ++ [.logout scope token] }

/-- Supabase::from (src/postgrest.rs lines 12-19, named fromTable because from
is a Lean keyword): refresh, then hand out a builder from the shared
postgrest state. -/
def Supabase.fromTable (st : Supabase) (now : Int)
    (refreshResult : Except AuthLibError Session) (sendOk : Bool)
    (table : String) : AuthOutcome Builder :=
  let r := st.refresh_login now refreshResult sendOk
  match r.result with
  | .error e =>
      { result := .error e, state := r.state, offers := r.offers
        logs := r.logs, calls := r.calls }
  | .ok _ =>
      { result := .ok (r.state.postgrest.fromTable table), state := r.state
        offers := r.offers, logs := r.logs, calls := r.calls }

/-- Supabase::rpc (src/postgrest.rs lines 22-30). -/
def Supabase.rpc (st : Supabase) (now : Int)
    (refreshResult : Except AuthLibError Session) (sendOk : Bool)
    (function params : String) : AuthOutcome Builder :=
  let r := st.refresh_login now refreshResult sendOk
  match r.result with
  | .error e =>
      { result := .error e, state := r.state, offers := r.offers
        logs := r.logs, calls := r.calls }
  | .ok _ =>
      { result := .ok (r.state.postgrest.rpc function params), state := r.state
        offers := r.offers, logs := r.logs, calls := r.calls }

/-- UpdateUserBuilder (src/auth.rs lines 8-12). In the source the builder holds
an Arc handle to the shared auth client and to the shared Session Store; in
this sequential embedding the shared store is the Supabase state passed to
send at send time, so the builder carries only the collected payload. -/
structure UpdateUserBuilder where
  user_info : UpdateUserPayload
  deriving Repr, DecidableEq

/-- Supabase::update_user (src/auth.rs lines 127-139): refresh, then return a
builder with an empty payload holding handles to the shared state. -/
def Supabase.update_user (st : Supabase) (now : Int)
    (refreshResult : Except AuthLibError Session) (sendOk : Bool) :
    AuthOutcome UpdateUserBuilder :=
  let r := st.refresh_login now refreshResult sendOk
  match r.result with
  | .error e =>
      { result := .error e, state := r.state, offers := r.offers
        logs := r.logs, calls := r.calls }
  | .ok _ =>
      { result := .ok { user_info := { email := none, password := none, data := none } }
        state := r.state, offers := r.offers, logs := r.logs, calls := r.calls }

/-- UpdateUserBuilder::email (src/auth.rs lines 159-162). -/
def UpdateUserBuilder.email (b : UpdateUserBuilder) (email : String) :
    UpdateUserBuilder :=
  { b with user_info := { b.user_info with email := some email } }

/-- UpdateUserBuilder::password (src/auth.rs lines 166-169). -/
def UpdateUserBuilder.password (b : UpdateUserBuilder) (password : String) :
    UpdateUserBuilder :=
  { b with user_info := { b.user_info with password := some password } }

/-- UpdateUserBuilder::send (src/auth.rs lines 144-155): read the access token
from the shared store at send time (st is the state of the shared client when
send runs), fail with MissingAuthenticationInformation when the store is
empty, otherwise make exactly one update_user provider call with that token. -/
def UpdateUserBuilder.send (b : UpdateUserBuilder) (st : Supabase)
    (updateResult : Except AuthLibError User) : AuthOutcome User :=
  match st.session with
  | none =>
      { result := .error .MissingAuthenticationInformation, state := st
        offers := [], logs := [], calls := [] }
  | some session =>
      let token := session.access_token
      match updateResult with
      | .error e =>
          { result := .error (.Auth e), state := st, offers := [], logs := []
            calls := [.updateUser b.user_info token] }
      | .ok user =>
          { result := .ok user, state := st, offers := [], logs := []
            calls := [.updateUser b.user_info token] }

/-- AuthenticatedClient (src/storage/mod.rs): the snapshot of credentials a
storage sub-client carries. -/
structure AuthenticatedClient where
  access_token : Option String
  apikey : String
  deriving Repr, DecidableEq

/-- Storage handle (src/storage/mod.rs). -/
structure Storage where
  client : AuthenticatedClient
  url_base : String
  deriving Repr, DecidableEq

/-- Supabase::storage (src/storage/mod.rs lines 11-31): refresh, then snapshot
the current access token and api key into a one-use storage client. -/
def Supabase.storage (st : Supabase) (now : Int)
    (refreshResult : Except AuthLibError Session) (sendOk : Bool) :
    AuthOutcome Storage :=
  let url_base := st.url_base ++ "/storage/v1"
  let r := st.refresh_login now refreshResult sendOk
  match r.result with
  | .error e =>
      { result := .error e, state := r.state, offers := r.offers
        logs := r.logs, calls := r.calls }
  | .ok _ =>
      let access_token := r.state.session.map (fun session => session.access_token)
      { result := .ok
          { client := { access_token := access_token, apikey := st.api_key }
            url_base := url_base }
        state := r.state, offers := r.offers, logs := r.logs, calls := r.calls }

/-- Object end-point handle (src/storage/object.rs and Storage::object in
src/storage/mod.rs lines 75-80). -/
structure StorageObject where
  client : AuthenticatedClient
  url_base : String
  deriving Repr, DecidableEq

/-- Storage::object (src/storage/mod.rs lines 75-80). The source type is named
Object; StorageObject avoids clashing with other uses of the word. -/
def Storage.object (s : Storage) : StorageObject :=
  { client := s.client, url_base := s.url_base ++ "/object" }

/-- HTTP method of a built storage request. -/
inductive Method where
  | get
  | post
  | put
  | delete
  deriving Repr, DecidableEq

/-- The request a storage operation would hand to the transport: method, url,
headers in the order the builder adds them, and the optional byte body. -/
structure StorageRequest where
  method : Method
  url : String
  headers : Headers
  body : Option (List Nat)
  deriving Repr, DecidableEq

/-- AuthenticateClient::authenticate (src/storage/mod.rs lines 87-95): add the
bearer header when a token is present, then the apikey header. -/
def authenticateHeaders (c : AuthenticatedClient) : Headers :=
  (match c.access_token with
   | some access_token => [("Authorization", "Bearer " ++ access_token)]
   | none => []) ++ [("apikey", c.apikey)]

/-- Object::upload_one (src/storage/object.rs lines 193-213) up to the hand-off
to the transport: determine the content type from the explicit argument or
else the guess for the path (mime_guess::from_path(...).first() is the oracle
guess), fail with UnknownMimeType when neither exists, otherwise build the
POST request that send would transmit. -/
def StorageObject.upload_one (o : StorageObject) (guess : String → Option String)
    (bucket_name wildcard : String) (data : List Nat)
    (content_type : Option String) : Except SupabaseError StorageRequest :=
  match content_type.orElse (fun _ => guess wildcard) with
  | none => .error .UnknownMimeType
  | some mime_type =>
      .ok { method := .post
            url := o.url_base ++ "/" ++ bucket_name ++ "/" ++ wildcard
            headers := authenticateHeaders o.client ++ [("Content-Type", mime_type)]
            body := some data }

/-- Object::update_one (src/storage/object.rs lines 170-190), same shape as
upload_one but issuing a PUT. -/
def StorageObject.update_one (o : StorageObject) (guess : String → Option String)
    (bucket_name wildcard : String) (data : List Nat)
    (content_type : Option String) : Except SupabaseError StorageRequest :=
  match content_type.orElse (fun _ => guess wildcard) with
  | none => .error .UnknownMimeType
  | some mime_type =>
      .ok { method := .put
            url := o.url_base ++ "/" ++ bucket_name ++ "/" ++ wildcard
            headers := authenticateHeaders o.client ++ [("Content-Type", mime_type)]
            body := some data }

/-- An HTTP response as the storage operations consume it: status code,
headers and body bytes. -/
structure HttpResponse where
  status : Nat
  headers : Headers
  body : List Nat
  deriving Repr, DecidableEq

/-- DecodeStorageErrorResponse (src/storage/mod.rs lines 101-111): a 4xx or
5xx status decodes the structured error body (errBody is the outcome of that
JSON decode; a decode failure surfaces as the reqwest error) and fails;
otherwise the response passes through. -/
def decode_storage_error_response (resp : HttpResponse)
    (errBody : Except String StorageError) : Except SupabaseError HttpResponse :=
  if 400 ≤ resp.status ∧ resp.status ≤ 599 then
    match errBody with
    | .ok e => .error (.Storage e)
    | .error msg => .error (.Reqwest msg)
  else
    .ok resp

/-- DownloadedObject (src/storage/object.rs lines 83-87); the mime type is the
string rendering of the mime::Mime value. -/
structure DownloadedObject where
  mime : String
  data : List Nat
  deriving Repr, DecidableEq

/-- Object::get_one (src/storage/object.rs lines 141-167): decode an error
status first, then take the Content-Type response header, parse it with the
external mime parser (the parseMime oracle models mime::Mime::from_str), and
fall back to application/octet-stream when the header is absent or does not
parse; the body bytes become the object data. -/
def StorageObject.get_one (o : StorageObject) (parseMime : String → Option String)
    (bucket_name wildcard : String) (resp : HttpResponse)
    (errBody : Except String StorageError) : Except SupabaseError DownloadedObject :=
  match decode_storage_error_response resp errBody with
  | .error e => .error e
  | .ok response =>
      let mime := ((headerGet response.headers "Content-Type").bind parseMime).getD
        "application/octet-stream"
      .ok { mime := mime, data := response.body }

/-! Helper lemmas about the embedding. -/

/-- Values below 2^63 are fixed points of the u64-to-i64 reinterpretation. -/
theorem toI64_eq_of_lt {n : Nat} (h : n < 2 ^ 63) : toI64 n = (n : Int) := by
  unfold toI64
  have h' : (n : Int) < 2 ^ 63 := by exact_mod_cast h
  have h0 : (0 : Int) ≤ (n : Int) + 2 ^ 63 := by positivity
  have h1 : (n : Int) + 2 ^ 63 < 2 ^ 64 := by
    have e : (2 : Int) ^ 64 = 2 ^ 63 + 2 ^ 63 := by norm_num
    omega
  rw [Int.emod_eq_of_lt h0 h1]
  ring

/-- Looking up the header just inserted yields its value. -/
theorem getHeader_insert_self (hs : Headers) (n v : String) :
    getHeader (insertHeader hs n v) n = some v := by
  simp [getHeader, insertHeader]

/-- find? is unaffected by filtering out entries with a different name. -/
theorem find?_filter_ne (hs : Headers) (n n' : String) (h : n' ≠ n) :
    (hs.filter (fun p => p.1 != n')).find? (fun p => p.1 == n) =
      hs.find? (fun p => p.1 == n) := by
  have hb : (n' == n) = false := by simpa using h
  have hb' : (n == n') = false := by simpa using Ne.symm h
  have hp : n ≠ n' := Ne.symm h
  induction hs with
  | nil => rfl
  | cons a t ih =>
      by_cases ha : a.1 = n'
      · simp [List.filter_cons, List.find?_cons, ha, hb, hb', ih]
      · by_cases h2 : a.1 = n
        · simp [List.filter_cons, List.find?_cons, ha, h2, hb, hb', hp, ih]
        · simp [List.filter_cons, List.find?_cons, ha, h2, hb, hb', hp, ih]

/-- Inserting one header leaves lookups of other names unchanged. -/
theorem getHeader_insert_of_ne (hs : Headers) {n n' : String} (v : String)
    (h : n' ≠ n) :
    getHeader (insertHeader hs n' v) n = getHeader hs n := by
  have hb : (n' == n) = false := by simpa using h
  unfold getHeader insertHeader
  rw [List.find?_cons]
  simp only [hb]
  rw [find?_filter_ne hs n n' h]

/-- The state set_auth_state leaves behind, independent of the listener mode:
the session is stored and the bearer header replaced. -/
theorem set_auth_state_state (st : Supabase) (sendOk : Bool) (s : Session) :
    (st.set_auth_state sendOk s).state =
      { st with session := some s
                postgrest := st.postgrest.insert_header "Authorization"
                  ("Bearer " ++ s.access_token) } := by
  cases hl : st.session_listener <;> simp [Supabase.set_auth_state, hl]

/-- The sessions set_auth_state offers to the sink: none in Ignore mode,
exactly the new session otherwise. -/
theorem set_auth_state_offers (st : Supabase) (sendOk : Bool) (s : Session) :
    (st.set_auth_state sendOk s).offers =
      if st.session_listener = .Ignore then [] else [s] := by
  cases hl : st.session_listener <;> simp [Supabase.set_auth_state, hl]

/-- The warnings set_auth_state logs: only a failed send in a non-ignore mode
logs, and it logs exactly the warning from src/auth.rs lines 35 and 40. -/
theorem set_auth_state_logs (st : Supabase) (sendOk : Bool) (s : Session) :
    (st.set_auth_state sendOk s).logs =
      if st.session_listener = .Ignore ∨ sendOk then []
      else ["Failed to send session to listener"] := by
  cases hl : st.session_listener <;> cases sendOk <;>
    simp [Supabase.set_auth_state, hl]

/-! Concrete fixtures used by witnesses and counterexamples. -/

/-- Sample user. -/
def sampleUser : User := { id := "user-1" }

/-- A session whose expiry (epoch 1760300000) is far beyond sampleNow. -/
def sampleSession : Session :=
  { access_token := "access0", refresh_token := "refresh0"
    expires_at := 1760300000, user := sampleUser }

/-- A session a refresh or login returns. -/
def renewedSession : Session :=
  { access_token := "access1", refresh_token := "refresh1"
    expires_at := 1760400000, user := sampleUser }

/-- A session expiring within the grace period of sampleNow. -/
def staleSession : Session :=
  { access_token := "accessS", refresh_token := "refreshS"
    expires_at := 1760227230, user := sampleUser }

/-- A session whose u64 expiry is not representable in an i64. -/
def hugeSession : Session :=
  { access_token := "accessH", refresh_token := "refreshH"
    expires_at := 2 ^ 63, user := sampleUser }

/-- Wall clock instant used by the concrete scenarios. -/
def sampleNow : Int := 1760227200

/-- Client constructed with the given prior session and the Ignore listener. -/
def clientWith (s : Option Session) : Supabase :=
  Supabase.new "http://localhost" "apikey0" s .Ignore

/-! Claim C3: behaviour of refresh_login on a still-fresh session. -/

/-- C3 fails as stated: a stored Session with expires_at = 2^63 satisfies
expires_at >= now + 60 seconds, yet refresh_login does call the identity
provider, because the source compares the u64 expiry through an i64 cast that
reinterprets 2^63 as a negative instant. -/
theorem fresh_session_no_call_cex :
    ((hugeSession.expires_at : Int) ≥ sampleNow + SESSION_REFRESH_GRACE_PERIOD_SECONDS) ∧
    ((clientWith (some hugeSession)).refresh_login sampleNow
        (.ok renewedSession) true).calls = [.refresh "refreshH"] := by
  constructor
  · decide
  · decide

/-- C3 (amended): for every stored Session whose expires_at is representable
in an i64 (below 2^63) and satisfies expires_at >= now + 60 seconds,
refresh_login makes no identity-provider call, leaves the whole client state
(hence the stored Session) identical, and returns success. The
representability bound is forced by the source's u64-to-i64 cast of
expires_at. -/
theorem refresh_login_fresh_session_no_call (st : Supabase) (s : Session)
    (now : Int) (refreshResult : Except AuthLibError Session) (sendOk : Bool)
    (hs : st.session = some s) (hrep : s.expires_at < 2 ^ 63)
    (hfresh : (s.expires_at : Int) ≥ now + SESSION_REFRESH_GRACE_PERIOD_SECONDS) :
    st.refresh_login now refreshResult sendOk =
      { result := .ok (), state := st, offers := [], logs := [], calls := [] } := by
  unfold Supabase.refresh_login
  rw [hs]
  have ht : ¬ (toI64 s.expires_at < now + SESSION_REFRESH_GRACE_PERIOD_SECONDS) := by
    rw [toI64_eq_of_lt hrep]
    exact not_lt.mpr hfresh
  simp [ht]

/-- Witness for the amended C3 at a concrete fresh session. -/
theorem refresh_login_fresh_session_witness :
    (clientWith (some sampleSession)).refresh_login sampleNow
        (.ok renewedSession) true =
      { result := .ok (), state := clientWith (some sampleSession)
        offers := [], logs := [], calls := [] } :=
  refresh_login_fresh_session_no_call _ _ _ _ _ rfl (by decide) (by decide)

/-! Claim C4: behaviour of refresh_login when the provider's refresh fails. -/

/-- C4: when a refresh is attempted (session present and within the grace
period) and the provider call fails, refresh_login returns SessionRefresh
wrapping the cause; the Store is cleared exactly when the cause is an
AuthError with HTTP status 400, and on any other failure the whole client
state is left unchanged (so the Store still holds the original Session). -/
theorem refresh_login_failure_clears_iff_bad_request (st : Supabase)
    (s : Session) (now : Int) (e : AuthLibError) (sendOk : Bool)
    (hs : st.session = some s)
    (hexp : toI64 s.expires_at < now + SESSION_REFRESH_GRACE_PERIOD_SECONDS) :
    (st.refresh_login now (.error e) sendOk =
      { result := .error (.SessionRefresh e)
        state := if isBadRequestAuthError e then { st with session := none } else st
        offers := [], logs := [], calls := [.refresh s.refresh_token] }) ∧
    ((st.refresh_login now (.error e) sendOk).state.session = none ↔
      isBadRequestAuthError e = true) := by
  have heq : st.refresh_login now (.error e) sendOk =
      { result := .error (.SessionRefresh e)
        state := if isBadRequestAuthError e then { st with session := none } else st
        offers := [], logs := [], calls := [.refresh s.refresh_token] } := by
    unfold Supabase.refresh_login
    rw [hs]
    by_cases hb : isBadRequestAuthError e <;> simp [hexp, hb]
  refine ⟨heq, ?_⟩
  rw [heq]
  by_cases hb : isBadRequestAuthError e <;> simp [hb, hs]

/-- Witness for C4 at a concrete stale session and a 400 rejection. -/
theorem refresh_login_failure_witness :
    ((clientWith (some staleSession)).refresh_login sampleNow
        (.error (.authError 400 "refresh token rejected")) true).state.session = none :=
  ((refresh_login_failure_clears_iff_bad_request _ staleSession sampleNow
      (.authError 400 "refresh token rejected") true rfl (by decide)).2).mpr (by decide)

/-- A refresh_login that returns success leaves a session in the store. -/
theorem refresh_login_ok_session (st : Supabase) (now : Int)
    (rr : Except AuthLibError Session) (sendOk : Bool)
    (h : (st.refresh_login now rr sendOk).result = .ok ()) :
    (st.refresh_login now rr sendOk).state.session.isSome := by
  unfold Supabase.refresh_login at h ⊢
  cases hs : st.session with
  | none => rw [hs] at h; simp at h
  | some s =>
      rw [hs] at h
      by_cases hexp : toI64 s.expires_at < now + SESSION_REFRESH_GRACE_PERIOD_SECONDS
      · simp only [hexp, if_true] at h ⊢
        cases rr with
        | ok session => simp [set_auth_state_state]
        | error e =>
            by_cases hb : isBadRequestAuthError e <;> simp [hb] at h
      · simp [hexp, hs]

/-! Claim C1: logout and the Session Store. -/

/-- C1 fails as stated: with a fresh stored Session (so the ensure_fresh and
token-read phases both pass) and a remote logout call that fails, logout
returns the provider error with the Store still holding the Session, not
cleared. -/
theorem logout_unconditional_clear_cex :
    (((clientWith (some sampleSession)).refresh_login sampleNow
        (.ok renewedSession) true).result = .ok ()) ∧
    ((clientWith (some sampleSession)).logout sampleNow none (.ok renewedSession)
        (.error (.other "network down")) true).result =
      .error (.Auth (.other "network down")) ∧
    ((clientWith (some sampleSession)).logout sampleNow none (.ok renewedSession)
        (.error (.other "network down")) true).state.session = some sampleSession := by
  refine ⟨by decide, by decide, by decide⟩

/-- C1 (amended): for every logout invocation whose initial
ensure_fresh/token-read phase passes, the Store is cleared when the remote
identity-provider logout call succeeds; when the remote call fails, the error
is propagated and the Store is left as the refresh phase left it, still
holding a Session. -/
theorem logout_clears_store_iff_remote_logout_succeeds (st : Supabase)
    (now : Int) (scope : Option LogoutScope) (rr : Except AuthLibError Session)
    (lr : Except AuthLibError Unit) (sendOk : Bool)
    (hok : (st.refresh_login now rr sendOk).result = .ok ()) :
    (lr = .ok () →
      (st.logout now scope rr lr sendOk).result = .ok () ∧
      (st.logout now scope rr lr sendOk).state.session = none) ∧
    (∀ e, lr = .error e →
      (st.logout now scope rr lr sendOk).result = .error (.Auth e) ∧
      (st.logout now scope rr lr sendOk).state.session =
        (st.refresh_login now rr sendOk).state.session ∧
      (st.refresh_login now rr sendOk).state.session.isSome) := by
  have hsome := refresh_login_ok_session st now rr sendOk hok
  rcases Option.isSome_iff_exists.mp hsome with ⟨s, hs⟩
  constructor
  · rintro rfl
    simp [Supabase.logout, hok, hs]
  · rintro e rfl
    simp [Supabase.logout, hok, hs]

/-- Witness for the amended C1: a concrete successful logout clears the Store,
and a concrete failed remote logout leaves it holding the Session. -/
theorem logout_clears_store_witness :
    (((clientWith (some sampleSession)).logout sampleNow none
        (.ok renewedSession) (.ok ()) true).result = .ok () ∧
     ((clientWith (some sampleSession)).logout sampleNow none
        (.ok renewedSession) (.ok ()) true).state.session = none) :=
  (logout_clears_store_iff_remote_logout_succeeds (clientWith (some sampleSession))
    sampleNow none (.ok renewedSession) (.ok ()) true (by decide)).1 rfl

/-! Claim C2: the shared default-header state versus the Session Store. -/

/-- Client state after a successful login on a freshly constructed client. -/
def cexAfterLogin : Supabase :=
  ((clientWith none).login_with_email "a@b.com" "pw" (.ok sampleSession) true).state

/-- Client state after a subsequent fully successful logout. -/
def cexAfterLogout : Supabase :=
  (cexAfterLogin.logout sampleNow none (.ok renewedSession) (.ok ()) true).state

/-- C2 fails as stated: after construct, login, logout (all successful) the
Store is empty, yet the shared default-header state still carries the bearer
token of the logged-out session, because logout clears the Store without
touching the postgrest headers. -/
theorem header_state_empty_store_cex :
    cexAfterLogout.session = none ∧
    getHeader cexAfterLogout.postgrest.headers "Authorization" =
      some ("Bearer " ++ sampleSession.access_token) := by
  refine ⟨by decide, by decide⟩

/-- C2 (amended): after construction and after every successful login or
refresh the shared default-header state carries the bearer token of the
currently stored Session (and no bearer token when constructed without one);
however logout and a terminal refresh rejection clear the Store without
removing the Authorization header, which then still holds the previous bearer
token while the Store is empty. -/
theorem header_state_tracks_login_and_refresh (url key email pw : String)
    (st : Supabase) (s sNew : Session) (old : Session) (now : Int)
    (l : SessionChangeListener) (sendOk : Bool)
    (rr : Except AuthLibError Session) (scope : Option LogoutScope)
    (msg : String) :
    (getHeader (Supabase.new url key none l).postgrest.headers "Authorization" = none) ∧
    (getHeader (Supabase.new url key (some s) l).postgrest.headers "Authorization" =
      some ("Bearer " ++ s.access_token)) ∧
    ((st.login_with_email email pw (.ok s) sendOk).state.session = some s ∧
      getHeader (st.login_with_email email pw (.ok s) sendOk).state.postgrest.headers
        "Authorization" = some ("Bearer " ++ s.access_token)) ∧
    (st.session = some old →
      toI64 old.expires_at < now + SESSION_REFRESH_GRACE_PERIOD_SECONDS →
      (st.refresh_login now (.ok sNew) sendOk).state.session = some sNew ∧
      getHeader (st.refresh_login now (.ok sNew) sendOk).state.postgrest.headers
        "Authorization" = some ("Bearer " ++ sNew.access_token)) ∧
    ((st.refresh_login now rr sendOk).result = .ok () →
      (st.logout now scope rr (.ok ()) sendOk).state.session = none ∧
      (st.logout now scope rr (.ok ()) sendOk).state.postgrest =
        (st.refresh_login now rr sendOk).state.postgrest) ∧
    (st.session = some old →
      toI64 old.expires_at < now + SESSION_REFRESH_GRACE_PERIOD_SECONDS →
      (st.refresh_login now (.error (.authError 400 msg)) sendOk).state.session = none ∧
      (st.refresh_login now (.error (.authError 400 msg)) sendOk).state.postgrest =
        st.postgrest) := by
  have hne : "apikey" ≠ "Authorization" := by decide
  refine ⟨?_, ?_, ?_, ?_, ?_, ?_⟩
  · simp [Supabase.new, Postgrest.insert_header, Postgrest.new,
      getHeader_insert_of_ne _ _ hne]
    rfl
  · simp [Supabase.new, Postgrest.insert_header, getHeader_insert_self]
  · constructor
    · simp [Supabase.login_with_email, set_auth_state_state]
    · simp [Supabase.login_with_email, set_auth_state_state,
        Postgrest.insert_header, getHeader_insert_self]
  · intro hs hexp
    constructor
    · simp [Supabase.refresh_login, hs, hexp, set_auth_state_state]
    · simp [Supabase.refresh_login, hs, hexp, set_auth_state_state,
        Postgrest.insert_header, getHeader_insert_self]
  · intro hok
    have hsome := refresh_login_ok_session st now rr sendOk hok
    rcases Option.isSome_iff_exists.mp hsome with ⟨s', hs'⟩
    constructor
    · simp [Supabase.logout, hok, hs']
    · simp [Supabase.logout, hok, hs']
  · intro hs hexp
    have hbad : isBadRequestAuthError (.authError 400 msg) = true := by
      simp [isBadRequestAuthError]
    constructor
    · simp [Supabase.refresh_login, hs, hexp, hbad]
    · simp [Supabase.refresh_login, hs, hexp, hbad]

/-- Witness for the amended C2: the header state at concrete construction,
login and refresh instants. -/
theorem header_state_tracks_witness :
    (getHeader (Supabase.new "http://localhost" "apikey0" none .Ignore).postgrest.headers
      "Authorization" = none) ∧
    (((clientWith none).login_with_email "a@b.com" "pw" (.ok sampleSession)
        true).state.session = some sampleSession) ∧
    (((clientWith (some staleSession)).refresh_login sampleNow (.ok renewedSession)
        true).state.session = some renewedSession) :=
  ⟨(header_state_tracks_login_and_refresh "http://localhost" "apikey0" "a@b.com" "pw"
      (clientWith none) sampleSession renewedSession staleSession sampleNow
      .Ignore true (.ok renewedSession) none "m").1,
   ((header_state_tracks_login_and_refresh "http://localhost" "apikey0" "a@b.com" "pw"
      (clientWith none) sampleSession renewedSession staleSession sampleNow
      .Ignore true (.ok renewedSession) none "m").2.2.1).1,
   (((header_state_tracks_login_and_refresh "http://localhost" "apikey0" "a@b.com" "pw"
      (clientWith (some staleSession)) sampleSession renewedSession staleSession sampleNow
      .Ignore true (.ok renewedSession) none "m").2.2.2.1) rfl (by decide)).1⟩

/-! Claim C5: login and refresh store exactly the provider's new Session. -/

/-- C5: a successful login stores exactly the Session the provider returned
(no merge of old and new fields), puts its bearer token into the shared
default headers and returns it to the caller; a failed login leaves the whole
client state unchanged; a successful refresh (when one is attempted) likewise
stores exactly the returned Session and updates the headers. -/
theorem login_refresh_store_exact_session (st : Supabase) (email pw : String)
    (s old : Session) (e : AuthLibError) (now : Int) (sendOk : Bool) :
    ((st.login_with_email email pw (.ok s) sendOk).state.session = some s ∧
     getHeader (st.login_with_email email pw (.ok s) sendOk).state.postgrest.headers
       "Authorization" = some ("Bearer " ++ s.access_token) ∧
     (st.login_with_email email pw (.ok s) sendOk).result = .ok s) ∧
    ((st.login_with_email email pw (.error e) sendOk).state = st ∧
     (st.login_with_email email pw (.error e) sendOk).result = .error (.Auth e)) ∧
    (st.session = some old →
      toI64 old.expires_at < now + SESSION_REFRESH_GRACE_PERIOD_SECONDS →
      (st.refresh_login now (.ok s) sendOk).state.session = some s ∧
      getHeader (st.refresh_login now (.ok s) sendOk).state.postgrest.headers
        "Authorization" = some ("Bearer " ++ s.access_token) ∧
      (st.refresh_login now (.ok s) sendOk).result = .ok () ∧
      (st.refresh_login now (.ok s) sendOk).calls = [.refresh old.refresh_token]) := by
  refine ⟨⟨?_, ?_, ?_⟩, ⟨?_, ?_⟩, ?_⟩
  · simp [Supabase.login_with_email, set_auth_state_state]
  · simp [Supabase.login_with_email, set_auth_state_state,
      Postgrest.insert_header, getHeader_insert_self]
  · simp [Supabase.login_with_email]
  · simp [Supabase.login_with_email]
  · simp [Supabase.login_with_email]
  · intro hs hexp
    refine ⟨?_, ?_, ?_, ?_⟩ <;>
      simp [Supabase.refresh_login, hs, hexp, set_auth_state_state,
        Postgrest.insert_header, getHeader_insert_self]

/-- Witness for C5 at a concrete login and a concrete refresh. -/
theorem login_refresh_store_witness :
    (((clientWith none).login_with_email "a@b.com" "pw" (.ok sampleSession)
        true).result = .ok sampleSession) ∧
    (((clientWith none).login_with_email "a@b.com" "pw"
        (.error (.other "bad credentials")) true).state = clientWith none) ∧
    (((clientWith (some staleSession)).refresh_login sampleNow (.ok renewedSession)
        true).calls = [.refresh staleSession.refresh_token]) :=
  ⟨((login_refresh_store_exact_session (clientWith none) "a@b.com" "pw"
      sampleSession staleSession (.other "bad credentials") sampleNow true).1).2.2,
   ((login_refresh_store_exact_session (clientWith none) "a@b.com" "pw"
      sampleSession staleSession (.other "bad credentials") sampleNow true).2.1).1,
   (((login_refresh_store_exact_session (clientWith (some staleSession)) "a@b.com" "pw"
      renewedSession staleSession (.other "bad credentials") sampleNow true).2.2)
      rfl (by decide)).2.2.2⟩

/-! Claim C6: authenticated operations on an empty Session Store. -/

/-- C6: with no Session in the Store, refresh_login and every operation that
runs it first (from, rpc, storage, update_user, logout) makes no
identity-provider call and fails with MissingAuthenticationInformation,
leaving the state unchanged. -/
theorem empty_store_fails_without_provider_call (st : Supabase) (now : Int)
    (rr : Except AuthLibError Session) (sendOk : Bool) (table fn params : String)
    (scope : Option LogoutScope) (lr : Except AuthLibError Unit)
    (h : st.session = none) :
    (st.refresh_login now rr sendOk =
      { result := .error .MissingAuthenticationInformation, state := st
        offers := [], logs := [], calls := [] }) ∧
    (st.fromTable now rr sendOk table =
      { result := .error .MissingAuthenticationInformation, state := st
        offers := [], logs := [], calls := [] }) ∧
    (st.rpc now rr sendOk fn params =
      { result := .error .MissingAuthenticationInformation, state := st
        offers := [], logs := [], calls := [] }) ∧
    (st.storage now rr sendOk =
      { result := .error .MissingAuthenticationInformation, state := st
        offers := [], logs := [], calls := [] }) ∧
    (st.update_user now rr sendOk =
      { result := .error .MissingAuthenticationInformation, state := st
        offers := [], logs := [], calls := [] }) ∧
    (st.logout now scope rr lr sendOk =
      { result := .error .MissingAuthenticationInformation, state := st
        offers := [], logs := [], calls := [] }) := by
  have hr : st.refresh_login now rr sendOk =
      { result := .error .MissingAuthenticationInformation, state := st
        offers := [], logs := [], calls := [] } := by
    unfold Supabase.refresh_login
    rw [h]
  refine ⟨hr, ?_, ?_, ?_, ?_, ?_⟩ <;>
    simp [Supabase.fromTable, Supabase.rpc, Supabase.storage,
      Supabase.update_user, Supabase.logout, hr]

/-- Witness for C6 on a concretely empty client. -/
theorem empty_store_fails_witness :
    ((clientWith none).fromTable sampleNow (.ok renewedSession) true "table" =
      { result := .error .MissingAuthenticationInformation, state := clientWith none
        offers := [], logs := [], calls := [] }) ∧
    ((clientWith none).logout sampleNow none (.ok renewedSession) (.ok ()) true =
      { result := .error .MissingAuthenticationInformation, state := clientWith none
        offers := [], logs := [], calls := [] }) :=
  ⟨(empty_store_fails_without_provider_call (clientWith none) sampleNow
      (.ok renewedSession) true "table" "fn" "params" none (.ok ()) rfl).2.1,
   (empty_store_fails_without_provider_call (clientWith none) sampleNow
      (.ok renewedSession) true "table" "fn" "params" none (.ok ()) rfl).2.2.2.2.2⟩

/-! Claim C7: notification delivery is exactly-once per success, best-effort. -/

/-- C7: every successful login offers the new Session to the sink exactly
once, whatever the Store held beforehand, and every successful refresh does
the same, except in Ignore mode where no observer is ever invoked; a failed
channel send changes neither result nor final state of any login or
refresh_login invocation, and in a non-ignore mode it logs exactly the
warning from the source. -/
theorem notification_offers_once_best_effort (st : Supabase) (email pw : String)
    (s old : Session) (now : Int) (sendOk : Bool) :
    ((st.login_with_email email pw (.ok s) sendOk).offers =
      if st.session_listener = .Ignore then [] else [s]) ∧
    (st.session = some old →
      toI64 old.expires_at < now + SESSION_REFRESH_GRACE_PERIOD_SECONDS →
      (st.refresh_login now (.ok s) sendOk).offers =
        if st.session_listener = .Ignore then [] else [s]) ∧
    ((st.login_with_email email pw (.ok s) false).result =
      (st.login_with_email email pw (.ok s) true).result ∧
     (st.login_with_email email pw (.ok s) false).state =
      (st.login_with_email email pw (.ok s) true).state ∧
     (st.refresh_login now (.ok s) false).result =
      (st.refresh_login now (.ok s) true).result ∧
     (st.refresh_login now (.ok s) false).state =
      (st.refresh_login now (.ok s) true).state) ∧
    (st.session_listener ≠ .Ignore →
      (st.login_with_email email pw (.ok s) false).logs =
        ["Failed to send session to listener"]) ∧
    (st.session_listener ≠ .Ignore →
      st.session = some old →
      toI64 old.expires_at < now + SESSION_REFRESH_GRACE_PERIOD_SECONDS →
      (st.refresh_login now (.ok s) false).logs =
        ["Failed to send session to listener"]) := by
  refine ⟨?_, ?_, ⟨?_, ?_, ?_, ?_⟩, ?_, ?_⟩
  · simp [Supabase.login_with_email, set_auth_state_offers]
  · intro hs hexp
    simp [Supabase.refresh_login, hs, hexp, set_auth_state_offers]
  · simp [Supabase.login_with_email]
  · simp [Supabase.login_with_email, set_auth_state_state]
  · unfold Supabase.refresh_login
    cases hs : st.session with
    | none => rfl
    | some a =>
        by_cases hexp : toI64 a.expires_at < now + SESSION_REFRESH_GRACE_PERIOD_SECONDS <;>
          simp [hexp]
  · unfold Supabase.refresh_login
    cases hs : st.session with
    | none => rfl
    | some a =>
        by_cases hexp : toI64 a.expires_at < now + SESSION_REFRESH_GRACE_PERIOD_SECONDS <;>
          simp [hexp, set_auth_state_state]
  · intro hl
    simp [Supabase.login_with_email, set_auth_state_logs, hl]
  · intro hl hs hexp
    simp [Supabase.refresh_login, hs, hexp, set_auth_state_logs, hl]

/-- Client with a Sync listener and a stale stored session, for the C7
witness. -/
def clientSyncStale : Supabase :=
  Supabase.new "http://localhost" "apikey0" (some staleSession) .Sync

/-- Witness for C7: with the Sync listener a login on a stale store and a
login on an empty store each offer the new session exactly once (the latter
with the Ignore listener offers nothing), a concrete refresh offers exactly
once, and a concrete failed send logs the warning. -/
theorem notification_offers_witness :
    ((clientSyncStale.login_with_email "a@b.com" "pw" (.ok renewedSession) true).offers =
      if clientSyncStale.session_listener = .Ignore then [] else [renewedSession]) ∧
    (((clientWith none).login_with_email "a@b.com" "pw" (.ok renewedSession) true).offers =
      if (clientWith none).session_listener = .Ignore then [] else [renewedSession]) ∧
    (((clientWith (some staleSession)).refresh_login sampleNow
        (.ok renewedSession) true).offers =
      if (clientWith (some staleSession)).session_listener = .Ignore then []
      else [renewedSession]) ∧
    ((clientSyncStale.login_with_email "a@b.com" "pw" (.ok renewedSession) false).logs =
      ["Failed to send session to listener"]) :=
  ⟨(notification_offers_once_best_effort clientSyncStale "a@b.com" "pw"
      renewedSession staleSession sampleNow true).1,
   (notification_offers_once_best_effort (clientWith none) "a@b.com" "pw"
      renewedSession staleSession sampleNow true).1,
   (notification_offers_once_best_effort (clientWith (some staleSession)) "a@b.com" "pw"
      renewedSession staleSession sampleNow true).2.1 rfl (by decide),
   (notification_offers_once_best_effort clientSyncStale "a@b.com" "pw"
      renewedSession staleSession sampleNow false).2.2.2.1 (by decide)⟩

/-! Claim C8: the update-user builder resolves the token at send time. -/

/-- C8: any two builders update_user hands out are equal, whatever state the
client was in at construction (the builder captures a handle to the shared
Store, never a token value); its send makes exactly one provider call using
the access token in the Store at the moment send runs, and fails with
MissingAuthenticationInformation, making no call, when the Store is empty at
that moment. -/
theorem update_user_builder_reads_token_at_send (st1 st2 stSend : Supabase)
    (now1 now2 : Int) (rr1 rr2 : Except AuthLibError Session) (so1 so2 : Bool)
    (b1 b2 : UpdateUserBuilder) (ur : Except AuthLibError User)
    (h1 : (st1.update_user now1 rr1 so1).result = .ok b1)
    (h2 : (st2.update_user now2 rr2 so2).result = .ok b2) :
    b1 = b2 ∧
    (stSend.session = none →
      b1.send stSend ur =
        { result := .error .MissingAuthenticationInformation, state := stSend
          offers := [], logs := [], calls := [] }) ∧
    (∀ s, stSend.session = some s →
      (b1.send stSend ur).calls = [.updateUser b1.user_info s.access_token]) := by
  have hval : ∀ (st : Supabase) (now : Int) (rr : Except AuthLibError Session)
      (so : Bool) (b : UpdateUserBuilder),
      (st.update_user now rr so).result = .ok b →
      b = { user_info := { email := none, password := none, data := none } } := by
    intro st now rr so b hb
    unfold Supabase.update_user at hb
    rcases hr : (st.refresh_login now rr so).result with e | u
    · simp only [hr] at hb
      exact absurd hb (by simp)
    · simp only [hr] at hb
      simp at hb
      exact hb.symm
  have e1 := hval st1 now1 rr1 so1 b1 h1
  have e2 := hval st2 now2 rr2 so2 b2 h2
  refine ⟨e1.trans e2.symm, ?_, ?_⟩
  · intro hn
    unfold UpdateUserBuilder.send
    rw [hn]
  · intro s hsome
    unfold UpdateUserBuilder.send
    rw [hsome]
    cases ur <;> rfl

/-- Witness for C8: the concrete empty builder sent against a client state
holding renewedSession calls the provider with renewedSession's token. -/
theorem update_user_send_witness :
    ((UpdateUserBuilder.mk { email := none, password := none, data := none }).send
        (clientWith (some renewedSession)) (.ok sampleUser)).calls =
      [.updateUser { email := none, password := none, data := none } "access1"] :=
  (update_user_builder_reads_token_at_send (clientWith (some sampleSession))
      (clientWith (some sampleSession)) (clientWith (some renewedSession))
      sampleNow sampleNow (.ok renewedSession) (.ok renewedSession) true true
      (UpdateUserBuilder.mk { email := none, password := none, data := none })
      (UpdateUserBuilder.mk { email := none, password := none, data := none })
      (.ok sampleUser) (by decide) (by decide)).2.2 renewedSession rfl

/-! Claim C9: content-type selection for storage writes. -/

/-- C9: for upload_one and update_one alike, an explicitly supplied
content-type is used; otherwise the guess for the path is used; when neither
exists, the operation fails with UnknownMimeType and no request is built. -/
theorem storage_write_content_type_selection (o : StorageObject)
    (guess : String → Option String) (bucket wildcard : String)
    (data : List Nat) (m : String) :
    (o.upload_one guess bucket wildcard data (some m) =
      .ok { method := .post
            url := o.url_base ++ "/" ++ bucket ++ "/" ++ wildcard
            headers := authenticateHeaders o.client ++ [("Content-Type", m)]
            body := some data }) ∧
    (∀ g, guess wildcard = some g →
      o.upload_one guess bucket wildcard data none =
        .ok { method := .post
              url := o.url_base ++ "/" ++ bucket ++ "/" ++ wildcard
              headers := authenticateHeaders o.client ++ [("Content-Type", g)]
              body := some data }) ∧
    (guess wildcard = none →
      o.upload_one guess bucket wildcard data none = .error .UnknownMimeType) ∧
    (o.update_one guess bucket wildcard data (some m) =
      .ok { method := .put
            url := o.url_base ++ "/" ++ bucket ++ "/" ++ wildcard
            headers := authenticateHeaders o.client ++ [("Content-Type", m)]
            body := some data }) ∧
    (∀ g, guess wildcard = some g →
      o.update_one guess bucket wildcard data none =
        .ok { method := .put
              url := o.url_base ++ "/" ++ bucket ++ "/" ++ wildcard
              headers := authenticateHeaders o.client ++ [("Content-Type", g)]
              body := some data }) ∧
    (guess wildcard = none →
      o.update_one guess bucket wildcard data none = .error .UnknownMimeType) := by
  refine ⟨rfl, ?_, ?_, rfl, ?_, ?_⟩ <;>
    first
      | (intro g hg
         simp [StorageObject.upload_one, StorageObject.update_one, Option.orElse, hg])
      | (intro hg
         simp [StorageObject.upload_one, StorageObject.update_one, Option.orElse, hg])

/-- Storage object handle used by concrete storage scenarios. -/
def sampleObject : StorageObject :=
  { client := { access_token := some "access0", apikey := "apikey0" }
    url_base := "http://localhost/storage/v1/object" }

/-- Extension-based guess table used by the C9 witness. -/
def sampleGuess : String → Option String :=
  fun p => if p = "a.txt" then some "text/plain" else none

/-- Witness for C9: a guessed content-type is used when none is supplied, and
a path with no guess fails with UnknownMimeType. -/
theorem storage_write_content_type_witness :
    (sampleObject.upload_one sampleGuess "bucket" "a.txt" [1, 2] none =
      .ok { method := .post
            url := "http://localhost/storage/v1/object" ++ "/" ++ "bucket" ++ "/" ++ "a.txt"
            headers := authenticateHeaders sampleObject.client ++ [("Content-Type", "text/plain")]
            body := some [1, 2] }) ∧
    (sampleObject.update_one sampleGuess "bucket" "noext" [1, 2] none =
      .error .UnknownMimeType) :=
  ⟨(storage_write_content_type_selection sampleObject sampleGuess "bucket" "a.txt"
      [1, 2] "image/png").2.1 "text/plain" (by decide),
   (storage_write_content_type_selection sampleObject sampleGuess "bucket" "noext"
      [1, 2] "image/png").2.2.2.2.2 (by decide)⟩

/-! Claim C10: get_one falls back to application/octet-stream. -/

/-- C10: for a get_one whose response has a non-error status, if the response
lacks a Content-Type header or its value does not parse as a MIME type, the
operation still succeeds and the DownloadedObject carries
application/octet-stream and the response's bytes. -/
theorem get_one_mime_fallback_octet_stream (o : StorageObject)
    (parseMime : String → Option String) (bucket wildcard : String)
    (resp : HttpResponse) (errBody : Except String StorageError)
    (hok : ¬ (400 ≤ resp.status ∧ resp.status ≤ 599))
    (hmime : headerGet resp.headers "Content-Type" = none ∨
      ∃ v, headerGet resp.headers "Content-Type" = some v ∧ parseMime v = none) :
    o.get_one parseMime bucket wildcard resp errBody =
      .ok { mime := "application/octet-stream", data := resp.body } := by
  unfold StorageObject.get_one decode_storage_error_response
  rw [if_neg hok]
  rcases hmime with hnone | ⟨v, hv, hp⟩
  · simp [hnone]
  · simp [hv, hp]

/-- Witness for C10: a 200 response with no Content-Type header downloads as
application/octet-stream even under a parser that accepts everything. -/
theorem get_one_mime_fallback_witness :
    sampleObject.get_one (fun v => some v) "bucket" "a.bin"
        { status := 200, headers := [("X-Custom", "y")], body := [7, 8] }
        (.error "no body") =
      .ok { mime := "application/octet-stream", data := [7, 8] } :=
  get_one_mime_fallback_octet_stream sampleObject (fun v => some v) "bucket" "a.bin"
    { status := 200, headers := [("X-Custom", "y")], body := [7, 8] }
    (.error "no body") (by decide) (.inl (by decide))

end Suparust
